import Mathlib

/-!
Verification of the WATA payment extension backend
(src/backend/wata/index.py and src/backend/wata-webhook/index.py).

The two Python handlers are shallowly embedded as pure Lean functions.
External effects are made explicit:

* library calls that can raise (json.loads, base64.b64decode,
  load_pem_public_key, key.verify, httpx requests, psycopg2) are modelled by
  oracle records whose fields return Option / Except values; an uncaught
  Python exception is the Except.error case of a handler's result;
* the relational store is a Lean structure threaded through the handlers;
  psycopg2 connections roll back uncommitted work when closed without
  commit, so only explicitly committed writes reach the returned store;
* JSON numbers are modelled as integers (no claim exercises fractional or
  floating-point behaviour).
-/

namespace Wata

/-- JSON value as produced by json.loads (numbers modelled as integers). -/
inductive JVal where
  | jnull
  | jbool (b : Bool)
  | jnum (n : Int)
  | jstr (s : String)
  | jarr (elems : List JVal)
  | jobj (fields : List (String × JVal))

/-- Python truthiness of a JSON value. -/
def jTruthy : JVal → Bool
  | .jnull => false
  | .jbool b => b
  | .jnum n => n != 0
  | .jstr s => !s.isEmpty
  | .jarr xs => !xs.isEmpty
  | .jobj fs => !fs.isEmpty

/-- dict.get with a default value. -/
def jGetD (fs : List (String × JVal)) (k : String) (d : JVal) : JVal :=
  match fs.lookup k with
  | some v => v
  | none => d

/-- Python str() of a JSON value.  The repr of lists and dicts is not
modelled; downstream code only ever tests these strings for emptiness and
stores them, and the repr of a list or dict is never empty. -/
def pyStr : JVal → String
  | .jnull => "None"
  | .jbool true => "True"
  | .jbool false => "False"
  | .jnum n => toString n
  | .jstr s => s
  | .jarr _ => "<list repr>"
  | .jobj _ => "<dict repr>"

def isPySpace (c : Char) : Bool :=
  c = ' ' || c = '\t' || c = '\n' || c = '\r'

/-- Value of a nonempty all-digit character list, else none. -/
def decDigits (cs : List Char) : Option Nat :=
  if cs.isEmpty then none
  else if cs.all Char.isDigit then
    some (cs.foldl (fun a c => 10 * a + (c.toNat - 48)) 0)
  else none

/-- Python int(string): strip surrounding whitespace, optional sign, decimal
digits; anything else raises ValueError (modelled as none).  Underscore
separators and non-ASCII digits are not modelled. -/
def parsePyInt (s : String) : Option Int :=
  let cs := ((s.data.dropWhile isPySpace).reverse.dropWhile isPySpace).reverse
  match cs with
  | '+' :: rest => (decDigits rest).map Int.ofNat
  | '-' :: rest => (decDigits rest).map (fun n => -(n : Int))
  | rest => (decDigits rest).map Int.ofNat

/-- Python int(x) on a JSON value; error is a raised exception. -/
def pyInt : JVal → Except Unit Int
  | .jnum n => .ok n
  | .jbool b => .ok (if b then 1 else 0)
  | .jstr s =>
    match parsePyInt s with
    | some n => .ok n
    | none => .error ()
  | _ => .error ()

/-- Python float(x) on a JSON value (numbers modelled as integers, so only
integer-shaped strings are parsed); error is a raised exception. -/
def pyFloat : JVal → Except Unit Int
  | .jnum n => .ok n
  | .jbool b => .ok (if b then 1 else 0)
  | .jstr s =>
    match parsePyInt s with
    | some n => .ok n
    | none => .error ()
  | _ => .error ()

/-- ASCII lower-casing of one character (str.lower; the status strings and
header names involved are ASCII). -/
def lowerChar (c : Char) : Char :=
  if 'A' ≤ c && c ≤ 'Z' then Char.ofNat (c.toNat + 32) else c

/-- ASCII upper-casing of one character (str.upper). -/
def upperChar (c : Char) : Char :=
  if 'a' ≤ c && c ≤ 'z' then Char.ofNat (c.toNat - 32) else c

def pyLower (s : String) : String := ⟨s.data.map lowerChar⟩

def pyUpper (s : String) : String := ⟨s.data.map upperChar⟩

/-- UTF-8 encoding of one character (payload.encode()). -/
def encodeChar (c : Char) : List Nat :=
  let n := c.toNat
  if n < 128 then [n]
  else if n < 2048 then [192 + n / 64, 128 + n % 64]
  else if n < 65536 then [224 + n / 4096, 128 + (n / 64) % 64, 128 + n % 64]
  else [240 + n / 262144, 128 + (n / 4096) % 64, 128 + (n / 64) % 64, 128 + n % 64]

/-- UTF-8 encoding of a string as a byte list. -/
def encodeUtf8 (s : String) : List Nat :=
  s.data.foldr (fun c acc => encodeChar c ++ acc) []

/-! ## Webhook signature verification (wata-webhook/index.py, lines 27-100) -/

/-- Outcome of key.verify(...): success, cryptography.InvalidSignature, or
any other exception. -/
inductive VerifyOutcome where
  | valid
  | invalidSignature
  | otherError
deriving DecidableEq

/-- Outcome of the httpx GET against the key-distribution endpoint.
netError models an exception raised by client.get (network failure,
timeout).  httpResp carries the status code and the result of
response.json()['value']: .error models a raised exception while parsing
the body, .ok the extracted "value" field (none when absent). -/
inductive FetchResult where
  | netError
  | httpResp (code : Nat) (body : Except Unit (Option String))

/-- The cryptographic and network collaborators of the verifier, one field
per library call.  loadKey: serialization.load_pem_public_key, none when it
raises.  b64decode: base64.b64decode of the signature header, none when it
raises.  rsaVerify: RSA PKCS#1 v1.5 / SHA-512 verification of (key,
message bytes, signature bytes) — a deterministic predicate of its three
arguments. -/
structure CryptoOracle where
  fetch : FetchResult
  loadKey : String → Option String
  b64decode : String → Option (List Nat)
  rsaVerify : String → List Nat → List Nat → VerifyOutcome

/-- Python truthiness of an optional string. -/
def truthyOpt : Option String → Bool
  | none => false
  | some s => !s.isEmpty

/-- get_wata_public_key.  Takes the module-level cache and returns the key
(or none) together with the new cache; .error models an exception raised
by the fetch (network failure, or response.json() on a malformed body),
which this function does not catch. -/
def get_wata_public_key (cache : Option String) (f : FetchResult) :
    Except Unit (Option String × Option String) :=
  if truthyOpt cache then .ok (cache, cache)
  else
    match f with
    | .netError => .error ()
    | .httpResp code body =>
      if code ≠ 200 then .ok (none, cache)
      else
        match body with
        | .error _ => .error ()
        | .ok v => if truthyOpt v then .ok (v, v) else .ok (none, cache)

/-- verify_webhook_signature.  Returns the boolean verdict and the new key
cache; .error models the uncaught exception propagating out of the
get_wata_public_key call. -/
def verify_webhook_signature (o : CryptoOracle) (cache : Option String)
    (payload signature : String) : Except Unit (Bool × Option String) :=
  match get_wata_public_key cache o.fetch with
  | .error _ => .error ()
  | .ok (pk, cache') =>
    match pk with
    | none => .ok (false, cache')
    | some pem =>
      if pem.isEmpty then .ok (false, cache')
      else
        match o.loadKey pem with
        | none => .ok (false, cache')
        | some key =>
          match o.b64decode signature with
          | none => .ok (false, cache')
          | some sigBytes =>
            match o.rsaVerify key (encodeUtf8 payload) sigBytes with
            | .valid => .ok (true, cache')
            | .invalidSignature => .ok (false, cache')
            | .otherError => .ok (false, cache')

/-- The fetch step completes without raising: no network exception, and
the body is only parsed (and can only raise) on a 200 response. -/
def fetchCompletes : FetchResult → Bool
  | .netError => false
  | .httpResp code body =>
    if code ≠ 200 then true
    else match body with
      | .ok _ => true
      | .error _ => false

/-! ## The order store -/

/-- One row of the orders table. -/
structure Order where
  id : Int
  order_number : String
  user_name : String
  user_email : String
  user_phone : String
  amount : Int
  wata_order_id : Int
  status : String
  delivery_address : String
  order_comment : String
  payment_url : Option JVal
  wata_transaction_id : Option JVal
  paid_at : Option Int
  created_at : Int
  updated_at : Int

/-- One row of the order_items table. -/
structure OrderItem where
  order_id : Int
  product_id : JVal
  product_name : JVal
  product_price : JVal
  quantity : JVal

/-- The relational store shared by both handlers. -/
structure Store where
  orders : List Order
  order_items : List OrderItem

/-- SELECT ... FROM orders WHERE wata_order_id = n, fetchone(). -/
def findOrder (orders : List Order) (n : Int) : Option Order :=
  orders.find? (fun o => o.wata_order_id == n)

/-- UPDATE orders SET status='paid', paid_at=now, updated_at=now
    WHERE id = oid. -/
def setPaid (orders : List Order) (oid : Int) (now : Int) : List Order :=
  orders.map fun o =>
    if o.id == oid then
      { o with status := "paid", paid_at := some now, updated_at := now }
    else o

/-- UPDATE orders SET status='failed', updated_at=now WHERE id = oid. -/
def setFailed (orders : List Order) (oid : Int) (now : Int) : List Order :=
  orders.map fun o =>
    if o.id == oid then { o with status := "failed", updated_at := now }
    else o

def successStatuses : List String := ["success", "completed", "paid"]

def failureStatuses : List String := ["failed", "error", "rejected"]

/-- (webhook_data.get("status") or "").lower(): empty string on a falsy
value, str.lower on a string, a raised AttributeError on any other truthy
value. -/
def pyLowerOr (v : JVal) : Except Unit String :=
  if jTruthy v then
    match v with
    | .jstr s => .ok (pyLower s)
    | _ => .error ()
  else .ok ""

inductive RAResult where
  | notFound
  | applied
deriving DecidableEq

/-- The order lookup and status transition of the webhook handler
(wata-webhook/index.py lines 187-231): find the order by provider order
id; classify the callback status; commit the corresponding UPDATE.  The
store returned is the committed store (each UPDATE is followed directly
by conn.commit() in the source). -/
def resolveAndApply (store : Store) (n : Int) (statusVal : JVal) (now : Int) :
    Except Unit (RAResult × Store) :=
  match findOrder store.orders n with
  | none => .ok (.notFound, store)
  | some o =>
    match pyLowerOr statusVal with
    | .error _ => .error ()
    | .ok status =>
      if successStatuses.contains status then
        if o.status ≠ "paid" then
          .ok (.applied, { store with orders := setPaid store.orders o.id now })
        else .ok (.applied, store)
      else if failureStatuses.contains status then
        .ok (.applied, { store with orders := setFailed store.orders o.id now })
      else .ok (.applied, store)

/-! ## HTTP plumbing -/

structure HttpResponse where
  statusCode : Nat
  body : String

/-- json.dumps of a one-field error object. -/
def jsonError (msg : String) : String :=
  "\x7b\"error\": \"" ++ msg ++ "\"\x7d"

def okBody : String := "\x7b\"status\": \"ok\"\x7d"

/-- Python (a or b) for an optional string a. -/
def pyOrStr (v : Option String) (d : String) : String :=
  match v with
  | some s => if s.isEmpty then d else s
  | none => d

/-- Signature extraction from the request headers: the source tries the
four exact dict keys below, in order, chained with Python or. -/
def extractSignature (headers : List (String × String)) : String :=
  pyOrStr (headers.lookup "X-Signature")
    (pyOrStr (headers.lookup "x-signature")
      (pyOrStr (headers.lookup "X-Wata-Signature")
        (pyOrStr (headers.lookup "x-wata-signature") "")))

/-! ## Webhook handler (wata-webhook/index.py, lines 129-242) -/

/-- The thirteen fields extracted by parse_webhook_data. -/
structure WebhookData where
  transaction_id : JVal
  order_id : JVal
  status : JVal
  amount : JVal
  currency : JVal
  error_code : JVal
  error_message : JVal
  payment_method : JVal
  payment_time : JVal
  terminal_name : JVal
  terminal_public_id : JVal
  commission : JVal
  email : JVal

/-- parse_webhook_data: thirteen data.get calls; raises (AttributeError)
when the parsed JSON value is not an object. -/
def parse_webhook_data : JVal → Except Unit WebhookData
  | .jobj fs =>
    .ok ⟨jGetD fs "transactionId" .jnull, jGetD fs "orderId" .jnull,
      jGetD fs "transactionStatus" .jnull, jGetD fs "amount" .jnull,
      jGetD fs "currency" .jnull, jGetD fs "errorCode" .jnull,
      jGetD fs "errorDescription" .jnull, jGetD fs "transactionType" .jnull,
      jGetD fs "paymentTime" .jnull, jGetD fs "terminalName" .jnull,
      jGetD fs "terminalPublicId" .jnull, jGetD fs "commission" .jnull,
      jGetD fs "email" .jnull⟩
  | _ => .error ()

structure WebhookEvent where
  httpMethod : String
  headers : List (String × String)
  body : String
  isBase64Encoded : Bool

/-- Collaborators of the webhook handler.  decodeBodyB64 models
base64.b64decode(body).decode('utf-8') on a base64-encoded body (raises on
malformed input); parseJson models json.loads (none = JSONDecodeError);
dbOk = false models psycopg2.connect / missing DATABASE_URL raising;
now is CURRENT_TIMESTAMP for this invocation. -/
structure WebhookWorld where
  crypto : CryptoOracle
  decodeBodyB64 : String → Except Unit String
  parseJson : String → Option JVal
  dbOk : Bool
  now : Int

namespace Webhook

/-- The webhook handler.  Result: HTTP response, committed store, and new
key cache; .error is an uncaught Python exception escaping the handler. -/
def handler (w : WebhookWorld) (cache : Option String) (store : Store)
    (event : WebhookEvent) : Except Unit (HttpResponse × Store × Option String) :=
  if pyUpper event.httpMethod = "OPTIONS" then .ok (⟨200, ""⟩, store, cache)
  else
    match (if event.isBase64Encoded then w.decodeBodyB64 event.body
           else .ok event.body) with
    | .error _ => .error ()
    | .ok body =>
      match verify_webhook_signature w.crypto cache body
          (extractSignature event.headers) with
      | .error _ => .error ()
      | .ok (verified, cache') =>
        if !verified then
          .ok (⟨401, jsonError "Invalid signature"⟩, store, cache')
        else
          match w.parseJson body with
          | none => .ok (⟨400, jsonError "Invalid JSON"⟩, store, cache')
          | some data =>
            match parse_webhook_data data with
            | .error _ => .error ()
            | .ok wd =>
              if !jTruthy wd.order_id then
                .ok (⟨400, jsonError "Missing order_id"⟩, store, cache')
              else if !w.dbOk then .error ()
              else
                match pyInt wd.order_id with
                | .error _ => .error ()
                | .ok n =>
                  match resolveAndApply store n wd.status w.now with
                  | .error _ => .error ()
                  | .ok (.notFound, store') =>
                    .ok (⟨404, jsonError "Order not found"⟩, store', cache')
                  | .ok (.applied, store') =>
                    .ok (⟨200, okBody⟩, store', cache')

end Webhook

/-! ## Order intake handler (wata/index.py) -/

/-- Outcome of the httpx POST to the payment-link endpoint: raises models
a network exception; resp carries status code, response.text, and the
result of response.json() (.error = parse exception). -/
inductive ProviderResult where
  | raises
  | resp (code : Nat) (text : String) (json : Except Unit JVal)

/-- Collaborators of the intake handler.  randPicks are the successive
values of random.randint(100000, 2147483647); newOrderId is the serial id
the INSERT ... RETURNING id would assign; dateStr is
datetime.now().strftime('%Y%m%d'). -/
structure IntakeWorld where
  tokenConfigured : Bool
  parseJson : String → Option JVal
  dbOk : Bool
  randPicks : List Int
  newOrderId : Int
  dateStr : String
  provider : ProviderResult
  now : Int

structure IntakeEvent where
  httpMethod : String
  body : String

/-- SELECT COUNT(*) FROM orders WHERE wata_order_id = p, nonzero. -/
def collides (orders : List Order) (p : Int) : Bool :=
  orders.any (fun o => o.wata_order_id == p)

/-- The bounded random retry loop: up to ten picks, keeping the first one
not present in the store; if all collide the loop leaves the last pick
bound (Python for-loop semantics). -/
def pickWataOrderId (picks : List Int) (orders : List Order) : Int :=
  match picks with
  | [] => 0
  | [p] => p
  | p :: rest => if collides orders p then pickWataOrderId rest orders else p

/-- Iterating the cart_items value: a list yields its elements; iterating
a nonempty string or dict yields characters or keys on which item.get then
raises; iterating any other value raises TypeError. -/
def itemsOf : JVal → Except Unit (List JVal)
  | .jarr xs => .ok xs
  | .jstr s => if s.isEmpty then .ok [] else .error ()
  | .jobj [] => .ok []
  | .jobj (_ :: _) => .error ()
  | _ => .error ()

/-- One order_items row built from a cart item (item.get raises on a
non-dict item). -/
def mkItem (oid : Int) : JVal → Except Unit OrderItem
  | .jobj f =>
    .ok ⟨oid, jGetD f "id" .jnull, jGetD f "name" .jnull,
      jGetD f "price" .jnull, jGetD f "quantity" .jnull⟩
  | _ => .error ()

def buildItems (oid : Int) : List JVal → Except Unit (List OrderItem)
  | [] => .ok []
  | v :: rest =>
    match mkItem oid v with
    | .error _ => .error ()
    | .ok it =>
      match buildItems oid rest with
      | .error _ => .error ()
      | .ok its => .ok (it :: its)

/-- Python (a or b) on JSON values. -/
def pyOrJ (a b : JVal) : JVal := if jTruthy a then a else b

/-- Rendering of a scalar JSON value inside the 200 response body (the
nested cases cannot reach the response body built below). -/
def jDumpFlat : JVal → String
  | .jnull => "null"
  | .jbool true => "true"
  | .jbool false => "false"
  | .jnum n => toString n
  | .jstr s => "\"" ++ s ++ "\""
  | .jarr _ => "<arr>"
  | .jobj _ => "<obj>"

/-- json.dumps of the intake 200 response body (string escaping is not
modelled). -/
def intakeOkBody (pu : JVal) (oid : Int) (onum : String) (tx : JVal) : String :=
  "\x7b\"payment_url\": " ++ jDumpFlat pu ++ ", \"order_id\": " ++ toString oid ++
    ", \"order_number\": \"" ++ onum ++ "\", \"wata_transaction_id\": " ++
    jDumpFlat tx ++ "\x7d"

namespace Intake

/-- The intake handler.  The INSERTs run inside the connection's implicit
transaction; conn.commit() is only reached on the success path, and
psycopg2 rolls an uncommitted transaction back when the connection is
closed, so every non-200 exit returns the store unchanged.  .error is an
uncaught Python exception escaping the handler (which also rolls back). -/
def handler (w : IntakeWorld) (store : Store) (event : IntakeEvent) :
    Except Unit (HttpResponse × Store) :=
  let method := pyUpper event.httpMethod
  if method = "OPTIONS" then .ok (⟨200, ""⟩, store)
  else if method ≠ "POST" then
    .ok (⟨405, jsonError "Method not allowed"⟩, store)
  else if !w.tokenConfigured then
    .ok (⟨500, jsonError "WATA credentials not configured"⟩, store)
  else
    match w.parseJson event.body with
    | none => .error ()
    | some payload =>
      match payload with
      | .jobj fields =>
        match pyFloat (jGetD fields "amount" (.jnum 0)) with
        | .error _ => .error ()
        | .ok amount =>
          let user_name := pyStr (jGetD fields "user_name" (.jstr ""))
          let user_email := pyStr (jGetD fields "user_email" (.jstr ""))
          let user_phone := pyStr (jGetD fields "user_phone" (.jstr ""))
          let user_address := pyStr (jGetD fields "user_address" (.jstr ""))
          let order_comment := pyStr (jGetD fields "order_comment" (.jstr ""))
          let cart_items := jGetD fields "cart_items" (.jarr [])
          if amount ≤ 0 then
            .ok (⟨400, jsonError "Amount must be greater than 0"⟩, store)
          else if user_name.isEmpty || user_email.isEmpty then
            .ok (⟨400, jsonError "user_name and user_email required"⟩, store)
          else if !w.dbOk then .error ()
          else
            let wid := pickWataOrderId (w.randPicks.take 10) store.orders
            let onum := "ORD-" ++ w.dateStr ++ "-" ++ toString wid
            let newOrder : Order :=
              ⟨w.newOrderId, onum, user_name, user_email, user_phone, amount,
                wid, "pending", user_address, order_comment, none, none, none,
                w.now, w.now⟩
            match itemsOf cart_items with
            | .error _ => .error ()
            | .ok itemVals =>
              match buildItems w.newOrderId itemVals with
              | .error _ => .error ()
              | .ok newItems =>
                match w.provider with
                | .raises => .error ()
                | .resp code text jsonR =>
                  if code ≠ 200 then
                    .ok (⟨500, jsonError ("WATA API error: " ++ text)⟩, store)
                  else
                    match jsonR with
                    | .error _ => .error ()
                    | .ok data =>
                      match data with
                      | .jobj df =>
                        let paymentUrl :=
                          pyOrJ (jGetD df "paymentUrl" .jnull) (jGetD df "url" .jnull)
                        let txid := jGetD df "id" .jnull
                        if !jTruthy paymentUrl then
                          .ok (⟨500, jsonError "Invalid response from WATA API"⟩, store)
                        else
                          .ok (⟨200, intakeOkBody paymentUrl w.newOrderId onum txid⟩,
                            ⟨store.orders ++
                              [{ newOrder with
                                  payment_url := some paymentUrl,
                                  wata_transaction_id := some txid }],
                             store.order_items ++ newItems⟩)
                      | _ => .error ()
      | _ => .error ()

end Intake

/-! ## Helper lemmas -/

theorem isEmpty_false_of_ne (s : String) (h : s ≠ "") : s.isEmpty = false := by
  cases hs : s.isEmpty
  · rfl
  · exact absurd ((String.isEmpty_iff s).mp hs) h

theorem find?_map_congr {α : Type} (g : α → α) (q : α → Bool)
    (h : ∀ a, q (g a) = q a) :
    ∀ l : List α, (l.map g).find? q = (l.find? q).map g := by
  intro l
  induction l with
  | nil => rfl
  | cons a t ih =>
    rw [List.map_cons, List.find?_cons, List.find?_cons, h a]
    cases q a
    · exact ih
    · rfl

theorem findOrder_setPaid (orders : List Order) (oid now n : Int) :
    findOrder (setPaid orders oid now) n =
      (findOrder orders n).map (fun o =>
        if o.id == oid then
          { o with status := "paid", paid_at := some now, updated_at := now }
        else o) := by
  unfold findOrder setPaid
  exact find?_map_congr _ _ (fun o => by cases h : o.id == oid <;> simp [h]) orders

theorem findOrder_setFailed (orders : List Order) (oid now n : Int) :
    findOrder (setFailed orders oid now) n =
      (findOrder orders n).map (fun o =>
        if o.id == oid then { o with status := "failed", updated_at := now }
        else o) := by
  unfold findOrder setFailed
  exact find?_map_congr _ _ (fun o => by cases h : o.id == oid <;> simp [h]) orders

theorem contains_fail_not_success (st : String)
    (h : failureStatuses.contains st = true) :
    st ∉ successStatuses ∧ st ∈ failureStatuses := by
  have hm : st ∈ failureStatuses := by
    simpa [List.contains] using h
  refine ⟨?_, hm⟩
  simp only [failureStatuses, List.mem_cons, List.not_mem_nil, or_false] at hm
  rcases hm with rfl | rfl | rfl <;> decide

/-! ## Claim C3 -/

/-- Claim C3: for every order whose status is already paid, a
success-classified callback (status lower-casing to success, completed or
paid) is a no-op on the store; consequently delivering the same success
callback twice leaves the store exactly as after the first application. -/
theorem success_callback_idempotent (v : JVal) (st : String)
    (hlow : pyLowerOr v = .ok st)
    (hsucc : successStatuses.contains st = true) :
    (∀ (store : Store) (n now : Int) (o : Order),
      findOrder store.orders n = some o → o.status = "paid" →
      resolveAndApply store n v now = .ok (.applied, store)) ∧
    (∀ (store : Store) (n now1 now2 : Int) (r1 : RAResult) (s1 : Store),
      resolveAndApply store n v now1 = .ok (r1, s1) →
      resolveAndApply s1 n v now2 = .ok (r1, s1)) := by
  have hmem : st ∈ successStatuses := by simpa [List.contains] using hsucc
  constructor
  · intro store n now o hf hpaid
    simp [resolveAndApply, hf, hlow, hmem, hpaid]
  · intro store n now1 now2 r1 s1 h1
    cases hf : findOrder store.orders n with
    | none =>
      rw [resolveAndApply] at h1
      rw [hf] at h1
      simp only [Except.ok.injEq, Prod.mk.injEq] at h1
      obtain ⟨h2, h3⟩ := h1
      subst h2; subst h3
      rw [resolveAndApply, hf]
    | some o =>
      have hrun : ∀ now : Int, resolveAndApply store n v now =
          .ok (.applied,
            if o.status = "paid" then store
            else { store with orders := setPaid store.orders o.id now }) := by
        intro now
        rw [resolveAndApply, hf]
        by_cases hp : o.status = "paid" <;> simp [hlow, hmem, hp]
      rw [hrun now1] at h1
      simp only [Except.ok.injEq, Prod.mk.injEq] at h1
      obtain ⟨h2, h3⟩ := h1
      subst h2
      by_cases hp : o.status = "paid"
      · rw [if_pos hp] at h3
        subst h3
        rw [hrun now2, if_pos hp]
      · rw [if_neg hp] at h3
        have hf2 : findOrder s1.orders n =
            some { o with status := "paid", paid_at := some now1, updated_at := now1 } := by
          rw [← h3]
          show findOrder (setPaid store.orders o.id now1) n = _
          rw [findOrder_setPaid, hf]
          simp
        rw [resolveAndApply, hf2]
        simp [hlow, hmem]

def storeC3 : Store :=
  ⟨[⟨1, "ORD-20260101-555", "A", "a@x.com", "", 100, 555, "paid", "", "",
    none, none, some 7, 0, 7⟩], []⟩

/-- Witness for C3 at a concrete paid order and the callback status
string "Success". -/
theorem success_callback_idempotent_w :
    resolveAndApply storeC3 555 (.jstr "Success") 9 = .ok (.applied, storeC3) ∧
    resolveAndApply storeC3 555 (.jstr "Success") 11 =
      .ok (.applied, storeC3) := by
  have h := success_callback_idempotent (.jstr "Success") "success" rfl
    (by decide)
  refine ⟨h.1 storeC3 555 9 _ rfl rfl, ?_⟩
  exact h.2 storeC3 555 9 11 .applied storeC3 (h.1 storeC3 555 9 _ rfl rfl)

/-! ## Claims C4 and C10 -/

theorem resolve_failure_eq (v : JVal) (st : String)
    (hlow : pyLowerOr v = .ok st)
    (hfail : failureStatuses.contains st = true)
    (store : Store) (n now : Int) (o : Order)
    (hf : findOrder store.orders n = some o) :
    resolveAndApply store n v now =
      .ok (.applied, { store with orders := setFailed store.orders o.id now }) ∧
    findOrder (setFailed store.orders o.id now) n =
      some { o with status := "failed", updated_at := now } := by
  obtain ⟨hns, hmf⟩ := contains_fail_not_success st hfail
  constructor
  · rw [resolveAndApply, hf]
    simp [hlow, hns, hmf]
  · rw [findOrder_setFailed, hf]
    simp

theorem resolve_success_found (vs : JVal) (sts : String)
    (hlow : pyLowerOr vs = .ok sts)
    (hsucc : successStatuses.contains sts = true)
    (store : Store) (n now : Int) (o : Order)
    (hf : findOrder store.orders n = some o) (r1 : RAResult) (s1 : Store)
    (h1 : resolveAndApply store n vs now = .ok (r1, s1)) :
    ∃ o1, findOrder s1.orders n = some o1 := by
  have hmem : sts ∈ successStatuses := by simpa [List.contains] using hsucc
  have hrun : resolveAndApply store n vs now = .ok (.applied,
      if o.status = "paid" then store
      else { store with orders := setPaid store.orders o.id now }) := by
    rw [resolveAndApply, hf]
    by_cases hp : o.status = "paid" <;> simp [hlow, hmem, hp]
  rw [hrun] at h1
  simp only [Except.ok.injEq, Prod.mk.injEq] at h1
  obtain ⟨h2, h3⟩ := h1
  by_cases hp : o.status = "paid"
  · rw [if_pos hp] at h3
    subst h3
    exact ⟨o, hf⟩
  · rw [if_neg hp] at h3
    subst h3
    refine ⟨{ o with status := "paid", paid_at := some now, updated_at := now }, ?_⟩
    show findOrder (setPaid store.orders o.id now) n = _
    rw [findOrder_setPaid, hf]
    simp

/-- Claim C4: a failure-classified callback on an existing order
unconditionally sets its status to failed and updates the modification
timestamp, whatever the current status; in particular, a success callback
followed later by a failure callback for the same order id leaves the
final status failed. -/
theorem failure_callback_unconditional (v : JVal) (st : String)
    (hlow : pyLowerOr v = .ok st)
    (hfail : failureStatuses.contains st = true) :
    (∀ (store : Store) (n now : Int) (o : Order),
      findOrder store.orders n = some o →
      resolveAndApply store n v now =
        .ok (.applied, { store with orders := setFailed store.orders o.id now }) ∧
      findOrder (setFailed store.orders o.id now) n =
        some { o with status := "failed", updated_at := now }) ∧
    (∀ (store : Store) (n now1 now2 : Int) (o : Order) (vs : JVal) (sts : String)
      (r1 : RAResult) (s1 : Store),
      findOrder store.orders n = some o →
      pyLowerOr vs = .ok sts → successStatuses.contains sts = true →
      resolveAndApply store n vs now1 = .ok (r1, s1) →
      ∃ s2 o2, resolveAndApply s1 n v now2 = .ok (.applied, s2) ∧
        findOrder s2.orders n = some o2 ∧ o2.status = "failed") := by
  constructor
  · intro store n now o hf
    exact resolve_failure_eq v st hlow hfail store n now o hf
  · intro store n now1 now2 o vs sts r1 s1 hf hlows hsuccs h1
    obtain ⟨o1, hf1⟩ :=
      resolve_success_found vs sts hlows hsuccs store n now1 o hf r1 s1 h1
    obtain ⟨happ, hfind⟩ := resolve_failure_eq v st hlow hfail s1 n now2 o1 hf1
    exact ⟨_, _, happ, hfind, rfl⟩

/-- Witness for C4: a failure callback downgrades the concrete paid order
of storeC3. -/
theorem failure_callback_unconditional_w :
    resolveAndApply storeC3 555 (.jstr "Failed") 9 =
      .ok (.applied, { storeC3 with orders := setFailed storeC3.orders 1 9 }) :=
  ((failure_callback_unconditional (.jstr "Failed") "failed" rfl (by decide)).1
    storeC3 555 9 _ rfl).1

/-- Claim C10: a failure-classified callback changes only the status and
updated_at fields of the matched order — paid_at and every other field,
and every other order, are unchanged — so an order downgraded from paid
to failed keeps the paid_at recorded by the earlier success callback. -/
theorem failure_callback_preserves_other_fields (v : JVal) (st : String)
    (hlow : pyLowerOr v = .ok st)
    (hfail : failureStatuses.contains st = true)
    (store : Store) (n now : Int) (o : Order)
    (hf : findOrder store.orders n = some o) :
    ∃ store', resolveAndApply store n v now = .ok (.applied, store') ∧
      store'.order_items = store.order_items ∧
      (∀ o2, o2 ∈ store.orders → o2.id ≠ o.id → o2 ∈ store'.orders) ∧
      ∃ o', findOrder store'.orders n = some o' ∧
        o'.status = "failed" ∧ o'.updated_at = now ∧
        o'.paid_at = o.paid_at ∧ o'.id = o.id ∧
        o'.order_number = o.order_number ∧ o'.user_name = o.user_name ∧
        o'.user_email = o.user_email ∧ o'.user_phone = o.user_phone ∧
        o'.amount = o.amount ∧ o'.wata_order_id = o.wata_order_id ∧
        o'.delivery_address = o.delivery_address ∧
        o'.order_comment = o.order_comment ∧
        o'.payment_url = o.payment_url ∧
        o'.wata_transaction_id = o.wata_transaction_id ∧
        o'.created_at = o.created_at := by
  obtain ⟨happ, hfind⟩ := resolve_failure_eq v st hlow hfail store n now o hf
  refine ⟨_, happ, rfl, ?_, _, hfind, rfl, rfl, rfl, rfl, rfl, rfl, rfl, rfl,
    rfl, rfl, rfl, rfl, rfl, rfl, rfl⟩
  intro o2 h2 hne
  show o2 ∈ setFailed store.orders o.id now
  unfold setFailed
  rw [List.mem_map]
  exact ⟨o2, h2, by simp [hne]⟩

/-- Witness for C10: the downgraded order of storeC3 keeps its paid_at. -/
theorem failure_callback_preserves_other_fields_w :
    ∃ store' o',
      resolveAndApply storeC3 555 (.jstr "REJECTED") 9 = .ok (.applied, store') ∧
      findOrder store'.orders 555 = some o' ∧ o'.status = "failed" ∧
      o'.paid_at = some 7 := by
  obtain ⟨s', h1, _, _, o', h2, h3, _, hp, _⟩ :=
    failure_callback_preserves_other_fields (.jstr "REJECTED") "rejected" rfl
      (by decide) storeC3 555 9 _ rfl
  exact ⟨s', o', h1, h2, h3, by rw [hp]⟩

/-! ## Claim C8 -/

/-- Claim C8: a verified webhook whose provider order id is not in the
store yields the 404 response and leaves the store unchanged. -/
theorem webhook_unknown_order_not_found (w : WebhookWorld) (cache c' : Option String)
    (store : Store) (m : String) (hs : List (String × String)) (b : String)
    (fs : List (String × JVal)) (n : Int)
    (hm : pyUpper m ≠ "OPTIONS")
    (hver : verify_webhook_signature w.crypto cache b (extractSignature hs) =
      .ok (true, c'))
    (hjson : w.parseJson b = some (.jobj fs))
    (htr : jTruthy (jGetD fs "orderId" .jnull) = true)
    (hdb : w.dbOk = true)
    (hint : pyInt (jGetD fs "orderId" .jnull) = .ok n)
    (hf : findOrder store.orders n = none) :
    Webhook.handler w cache store ⟨m, hs, b, false⟩ =
      .ok (⟨404, jsonError "Order not found"⟩, store, c') := by
  simp [Webhook.handler, parse_webhook_data, resolveAndApply, hm, hver, hjson,
    htr, hdb, hint, hf]

def goodCrypto : CryptoOracle :=
  ⟨.httpResp 200 (.ok (some "PEMKEY")), fun _ => some "LK", fun _ => some [9],
    fun _ _ _ => .valid⟩

def unknownOrderWorld : WebhookWorld :=
  ⟨goodCrypto, fun _ => .error (),
    fun _ => some (.jobj [("orderId", .jstr "777"), ("transactionStatus", .jstr "Paid")]),
    true, 3⟩

/-- Witness for C8 at a concrete event whose order id 777 is absent from
storeC3. -/
theorem webhook_unknown_order_not_found_w :
    Webhook.handler unknownOrderWorld none storeC3
      ⟨"POST", [], "\x7b\"orderId\": \"777\"\x7d", false⟩ =
      .ok (⟨404, jsonError "Order not found"⟩, storeC3, some "PEMKEY") :=
  webhook_unknown_order_not_found unknownOrderWorld none (some "PEMKEY") storeC3
    "POST" [] "\x7b\"orderId\": \"777\"\x7d"
    [("orderId", .jstr "777"), ("transactionStatus", .jstr "Paid")] 777
    (by decide) rfl rfl rfl rfl rfl rfl

/-! ## Claim C9 -/

def badIdWorld : WebhookWorld :=
  ⟨goodCrypto, fun _ => .error (),
    fun _ => some (.jobj [("orderId", .jstr "abc")]), true, 0⟩

/-- Claim C9: a webhook request that passes signature verification and
JSON parsing but carries a non-empty, non-integer orderId string makes the
handler raise int()'s ValueError instead of returning an HTTP response. -/
theorem webhook_non_integer_order_id_raises :
    Webhook.handler badIdWorld none storeC3
      ⟨"POST", [], "\x7b\"orderId\": \"abc\"\x7d", false⟩ = .error () := rfl

/-! ## Claim C6 -/

/-- A header value that Python treats as absent-or-falsy. -/
def nonTruthyHeader (v : Option String) : Prop := v = none ∨ v = some ""

/-- Counterexample to C6: the all-caps casing X-SIGNATURE is not
recognised (the extracted signature is empty), although the exact casing
X-Signature is. -/
theorem header_lookup_not_case_insensitive :
    extractSignature [("X-SIGNATURE", "abc")] = "" ∧
    extractSignature [("X-Signature", "abc")] = "abc" := by decide

/-- Claim C6 as amended: the signature is taken from exactly the four
header spellings X-Signature, x-signature, X-Wata-Signature,
x-wata-signature (first truthy value wins); when none of these exact
names carries a nonempty value — whatever other casings are present —
the extracted signature is empty. -/
theorem signature_header_exact_names (hs : List (String × String)) (v : String) :
    (nonTruthyHeader (hs.lookup "X-Signature") →
     nonTruthyHeader (hs.lookup "x-signature") →
     nonTruthyHeader (hs.lookup "X-Wata-Signature") →
     nonTruthyHeader (hs.lookup "x-wata-signature") →
     extractSignature hs = "") ∧
    (hs.lookup "X-Signature" = some v → v ≠ "" → extractSignature hs = v) := by
  constructor
  · intro h1 h2 h3 h4
    unfold extractSignature
    rcases h4 with h4 | h4 <;> rcases h3 with h3 | h3 <;>
      rcases h2 with h2 | h2 <;> rcases h1 with h1 | h1 <;>
      simp [pyOrStr, h1, h2, h3, h4]
  · intro h1 hne
    unfold extractSignature
    rw [h1]
    simp [pyOrStr, isEmpty_false_of_ne v hne]

/-- Witness for C6 at concrete header lists. -/
theorem signature_header_exact_names_w :
    extractSignature [("X-SIGNATURE", "zzz")] = "" ∧
    extractSignature [("X-Signature", "sig1")] = "sig1" :=
  ⟨(signature_header_exact_names [("X-SIGNATURE", "zzz")] "x").1
      (Or.inl rfl) (Or.inl rfl) (Or.inl rfl) (Or.inl rfl),
   (signature_header_exact_names [("X-Signature", "sig1")] "sig1").2
      rfl (by decide)⟩

/-! ## Claim C1 -/

/-- Claim C1: with the provider key obtained and loaded, the verifier
returns true exactly when the base64-decoded signature is a valid RSA
PKCS#1 v1.5 / SHA-512 signature (the rsaVerify oracle) over the UTF-8
bytes of the exact raw payload string; any pair failing that check —
such as one produced by flipping a byte of the payload or of the
signature, which invalidates the RSA check or the base64 decoding —
yields false. -/
theorem verify_true_iff_valid_rsa (o : CryptoOracle) (cache c0 : Option String)
    (key lk : String) (payload sig : String)
    (hkey : get_wata_public_key cache o.fetch = .ok (some key, c0))
    (hne : key.isEmpty = false)
    (hload : o.loadKey key = some lk) :
    (verify_webhook_signature o cache payload sig = .ok (true, c0) ↔
      ∃ sb, o.b64decode sig = some sb ∧
        o.rsaVerify lk (encodeUtf8 payload) sb = .valid) ∧
    ((¬ ∃ sb, o.b64decode sig = some sb ∧
        o.rsaVerify lk (encodeUtf8 payload) sb = .valid) →
      verify_webhook_signature o cache payload sig = .ok (false, c0)) := by
  have hv : verify_webhook_signature o cache payload sig =
      match o.b64decode sig with
      | none => .ok (false, c0)
      | some sb =>
        match o.rsaVerify lk (encodeUtf8 payload) sb with
        | .valid => .ok (true, c0)
        | .invalidSignature => .ok (false, c0)
        | .otherError => .ok (false, c0) := by
    rw [verify_webhook_signature, hkey]
    simp [hne, hload]
  constructor
  · rw [hv]
    cases hb : o.b64decode sig with
    | none => simp
    | some sb =>
      cases hr : o.rsaVerify lk (encodeUtf8 payload) sb <;> simp [hr]
  · intro hno
    rw [hv]
    cases hb : o.b64decode sig with
    | none => rfl
    | some sb =>
      cases hr : o.rsaVerify lk (encodeUtf8 payload) sb with
      | valid => exact absurd ⟨sb, hb, hr⟩ hno
      | invalidSignature => simp [hr]
      | otherError => simp [hr]

def invalidOracle : CryptoOracle :=
  ⟨.httpResp 200 (.ok (some "PEMKEY")), fun _ => some "LK", fun _ => some [9],
    fun _ _ _ => .invalidSignature⟩

/-- Witness for C1: a cryptographically accepting oracle yields true, an
oracle rejecting the same pair yields false. -/
theorem verify_true_iff_valid_rsa_w :
    verify_webhook_signature goodCrypto none "payload" "sig" =
      .ok (true, some "PEMKEY") ∧
    verify_webhook_signature invalidOracle none "payload" "sig" =
      .ok (false, some "PEMKEY") := by
  constructor
  · exact (verify_true_iff_valid_rsa goodCrypto none (some "PEMKEY") "PEMKEY" "LK"
      "payload" "sig" rfl rfl rfl).1.mpr ⟨[9], rfl, rfl⟩
  · refine (verify_true_iff_valid_rsa invalidOracle none (some "PEMKEY") "PEMKEY"
      "LK" "payload" "sig" rfl rfl rfl).2 ?_
    rintro ⟨sb, hsb, hr⟩
    simp [invalidOracle] at hr

/-! ## Claim C2 -/

def netErrorOracle : CryptoOracle :=
  ⟨.netError, fun _ => none, fun _ => none, fun _ _ _ => .otherError⟩

/-- Counterexample to C2: with an empty key cache and a key fetch that
raises a network error, verify_webhook_signature raises (the
get_wata_public_key call sits outside every try block) instead of
returning false. -/
theorem verify_raises_on_network_error :
    verify_webhook_signature netErrorOracle none "payload" "sig" = .error () := rfl

/-- Claim C2 as amended: provided the key-fetch step completes without
raising (or a key is already cached), the verifier always returns a
boolean, and it returns true only when a key was obtained and loaded, the
signature base64-decoded, and the RSA check succeeded — every failure
path returns false.  (A network error or malformed body during the key
fetch itself still raises, per the counterexample.) -/
theorem verify_no_raise_when_fetch_completes (o : CryptoOracle)
    (cache : Option String) (p s : String)
    (h : truthyOpt cache = true ∨ fetchCompletes o.fetch = true) :
    (∃ b c, verify_webhook_signature o cache p s = .ok (b, c)) ∧
    ((¬ ∃ key c0 lk sb,
        get_wata_public_key cache o.fetch = .ok (some key, c0) ∧
        o.loadKey key = some lk ∧ o.b64decode s = some sb ∧
        o.rsaVerify lk (encodeUtf8 p) sb = .valid) →
      ∀ c, verify_webhook_signature o cache p s ≠ .ok (true, c)) := by
  have hget : ∃ pk c0, get_wata_public_key cache o.fetch = .ok (pk, c0) := by
    cases hcc : truthyOpt cache with
    | true => exact ⟨cache, cache, by rw [get_wata_public_key.eq_def, if_pos hcc]⟩
    | false =>
      have hfc : fetchCompletes o.fetch = true := by
        rcases h with h | h
        · rw [hcc] at h; cases h
        · exact h
      rw [get_wata_public_key.eq_def,
        if_neg (by rw [hcc]; exact Bool.false_ne_true)]
      cases hfr : o.fetch with
      | netError => rw [hfr] at hfc; simp [fetchCompletes] at hfc
      | httpResp code body =>
        by_cases hc : code = 200
        · subst hc
          cases body with
          | error e =>
            rw [hfr] at hfc
            simp [fetchCompletes] at hfc
          | ok v =>
            cases htv : truthyOpt v with
            | true => exact ⟨v, v, by simp [htv]⟩
            | false => exact ⟨none, cache, by simp [htv]⟩
        · exact ⟨none, cache, by simp [hc]⟩
  obtain ⟨pk, c0, hg⟩ := hget
  constructor
  · cases pk with
    | none => exact ⟨false, c0, by rw [verify_webhook_signature, hg]⟩
    | some pem =>
      cases hpe : pem.isEmpty with
      | true =>
        exact ⟨false, c0, by rw [verify_webhook_signature, hg]; simp [hpe]⟩
      | false =>
        cases hl : o.loadKey pem with
        | none =>
          exact ⟨false, c0,
            by rw [verify_webhook_signature, hg]; simp [hpe, hl]⟩
        | some lk =>
          cases hb : o.b64decode s with
          | none =>
            exact ⟨false, c0,
              by rw [verify_webhook_signature, hg]; simp [hpe, hl, hb]⟩
          | some sb =>
            cases hr : o.rsaVerify lk (encodeUtf8 p) sb with
            | valid =>
              exact ⟨true, c0,
                by rw [verify_webhook_signature, hg]; simp [hpe, hl, hb, hr]⟩
            | invalidSignature =>
              exact ⟨false, c0,
                by rw [verify_webhook_signature, hg]; simp [hpe, hl, hb, hr]⟩
            | otherError =>
              exact ⟨false, c0,
                by rw [verify_webhook_signature, hg]; simp [hpe, hl, hb, hr]⟩
  · intro hno c hcontra
    rw [verify_webhook_signature, hg] at hcontra
    cases pk with
    | none => simp at hcontra
    | some pem =>
      cases hpe : pem.isEmpty with
      | true => simp [hpe] at hcontra
      | false =>
        cases hl : o.loadKey pem with
        | none => simp [hpe, hl] at hcontra
        | some lk =>
          cases hb : o.b64decode s with
          | none => simp [hpe, hl, hb] at hcontra
          | some sb =>
            cases hr : o.rsaVerify lk (encodeUtf8 p) sb with
            | valid => exact hno ⟨pem, c0, lk, sb, hg, hl, hb, hr⟩
            | invalidSignature => simp [hpe, hl, hb, hr] at hcontra
            | otherError => simp [hpe, hl, hb, hr] at hcontra

/-- Witness for C2 at a concrete oracle whose fetch completes but whose
RSA check rejects. -/
theorem verify_no_raise_when_fetch_completes_w :
    (∃ b c, verify_webhook_signature invalidOracle none "p" "s" = .ok (b, c)) ∧
    ∀ c, verify_webhook_signature invalidOracle none "p" "s" ≠ .ok (true, c) := by
  have h := verify_no_raise_when_fetch_completes invalidOracle none "p" "s"
    (Or.inr (by decide))
  refine ⟨h.1, h.2 ?_⟩
  rintro ⟨key, c0, lk, sb, hg, hl, hb, hr⟩
  simp [invalidOracle] at hr

/-! ## Claim C5 -/

/-- Claim C5 as amended: after validation passes, a provider failure
(non-200 response, or a 200 response without a usable link) yields a 500
response and leaves the store exactly as before the call — the INSERTed
pending order row was never committed, and psycopg2 rolls it back when
the connection is closed without commit. -/
theorem upstream_failure_rolls_back (w : IntakeWorld) (store : Store)
    (m b : String) (fs : List (String × JVal)) (a : Int) (ivs : List JVal)
    (its : List OrderItem) (code : Nat) (text : String) (data : JVal)
    (hm : pyUpper m = "POST")
    (htok : w.tokenConfigured = true)
    (hjson : w.parseJson b = some (.jobj fs))
    (hamt : pyFloat (jGetD fs "amount" (.jnum 0)) = .ok a)
    (hpos : 0 < a)
    (hname : (pyStr (jGetD fs "user_name" (.jstr ""))).isEmpty = false)
    (hemail : (pyStr (jGetD fs "user_email" (.jstr ""))).isEmpty = false)
    (hdb : w.dbOk = true)
    (hitems : itemsOf (jGetD fs "cart_items" (.jarr [])) = .ok ivs)
    (hbuild : buildItems w.newOrderId ivs = .ok its)
    (hprov : w.provider = .resp code text (.ok data)) :
    (code ≠ 200 →
      Intake.handler w store ⟨m, b⟩ =
        .ok (⟨500, jsonError ("WATA API error: " ++ text)⟩, store)) ∧
    (∀ df, code = 200 → data = .jobj df →
      jTruthy (pyOrJ (jGetD df "paymentUrl" .jnull) (jGetD df "url" .jnull)) =
        false →
      Intake.handler w store ⟨m, b⟩ =
        .ok (⟨500, jsonError "Invalid response from WATA API"⟩, store)) := by
  have hle : ¬ a ≤ 0 := not_le.mpr hpos
  constructor
  · intro hc
    simp [Intake.handler, hm, htok, hjson, hamt, hle, hname, hemail, hdb,
      hitems, hbuild, hprov, hc]
  · intro df hc hdata hfalse
    subst hc; subst hdata
    simp [Intake.handler, hm, htok, hjson, hamt, hle, hname, hemail, hdb,
      hitems, hbuild, hprov, hfalse]

def intakeJson : String → Option JVal :=
  fun _ => some (.jobj [("amount", .jnum 100), ("user_name", .jstr "A"),
    ("user_email", .jstr "a@x.com"),
    ("cart_items", .jarr [.jobj [("id", .jnum 1), ("name", .jstr "Widget"),
      ("price", .jnum 50), ("quantity", .jnum 2)]])])

def w5a : IntakeWorld :=
  ⟨true, intakeJson, true, [123456], 1, "20260101",
    .resp 502 "bad gateway" (.ok .jnull), 0⟩

def w5b : IntakeWorld :=
  ⟨true, intakeJson, true, [123456], 1, "20260101",
    .resp 200 "" (.ok (.jobj [("id", .jstr "tx1")])), 0⟩

/-- Counterexample to C5 as stated: on a provider 502 after a fully valid
intake request, the handler returns 500 and the resulting store is empty —
no order row in pending status exists. -/
theorem provider_failure_leaves_no_order_row :
    Intake.handler w5a ⟨[], []⟩ ⟨"POST", "body"⟩ =
      .ok (⟨500, jsonError "WATA API error: bad gateway"⟩, ⟨[], []⟩) := rfl

/-- Witness for C5 (amended) at both failure shapes: provider non-200, and
provider 200 without a usable link. -/
theorem upstream_failure_rolls_back_w :
    Intake.handler w5a ⟨[], []⟩ ⟨"POST", "body"⟩ =
      .ok (⟨500, jsonError "WATA API error: bad gateway"⟩, ⟨[], []⟩) ∧
    Intake.handler w5b ⟨[], []⟩ ⟨"POST", "body"⟩ =
      .ok (⟨500, jsonError "Invalid response from WATA API"⟩, ⟨[], []⟩) := by
  constructor
  · exact (upstream_failure_rolls_back w5a ⟨[], []⟩ "POST" "body" _ 100 _ _ 502
      "bad gateway" .jnull rfl rfl rfl rfl (by decide) rfl rfl rfl rfl rfl
      rfl).1 (by decide)
  · exact (upstream_failure_rolls_back w5b ⟨[], []⟩ "POST" "body" _ 100 _ _ 200
      "" (.jobj [("id", .jstr "tx1")]) rfl rfl rfl rfl (by decide) rfl rfl rfl
      rfl rfl rfl).2 [("id", .jstr "tx1")] rfl rfl rfl

/-! ## Claim C7 -/

def badJsonIntakeWorld : IntakeWorld :=
  ⟨true, fun _ => none, true, [123456], 1, "20260101", .raises, 0⟩

/-- Counterexample to C7 as stated: the intake handler propagates
json.loads's exception on an unparsable body (json.loads is not inside a
try block there) instead of returning a 400 response. -/
theorem intake_unparsable_json_raises :
    Intake.handler badJsonIntakeWorld ⟨[], []⟩ ⟨"POST", "not json"⟩ =
      .error () := rfl

/-- Claim C7 as amended: on an unparsable JSON body the webhook handler
(after signature verification) returns 400 with the store untouched,
while the intake handler raises an uncaught exception instead of
returning 400; neither mutates the store (the raise happens before any
database write). -/
theorem unparsable_json_amended
    (w : WebhookWorld) (cache c' : Option String) (store : Store)
    (m : String) (hs : List (String × String)) (b : String)
    (iw : IntakeWorld) (im ib : String)
    (hm : pyUpper m ≠ "OPTIONS")
    (hver : verify_webhook_signature w.crypto cache b (extractSignature hs) =
      .ok (true, c'))
    (hjson : w.parseJson b = none)
    (him : pyUpper im = "POST")
    (htok : iw.tokenConfigured = true)
    (hij : iw.parseJson ib = none) :
    Webhook.handler w cache store ⟨m, hs, b, false⟩ =
      .ok (⟨400, jsonError "Invalid JSON"⟩, store, c') ∧
    Intake.handler iw store ⟨im, ib⟩ = .error () := by
  constructor
  · simp [Webhook.handler, hm, hver, hjson]
  · simp [Intake.handler, him, htok, hij]

def sigOkBadJsonWorld : WebhookWorld :=
  ⟨goodCrypto, fun _ => .error (), fun _ => none, true, 0⟩

/-- Witness for C7 (amended) at concrete events with unparsable bodies. -/
theorem unparsable_json_amended_w :
    Webhook.handler sigOkBadJsonWorld none storeC3 ⟨"POST", [], "not json", false⟩ =
      .ok (⟨400, jsonError "Invalid JSON"⟩, storeC3, some "PEMKEY") ∧
    Intake.handler badJsonIntakeWorld storeC3 ⟨"POST", "not json"⟩ = .error () :=
  unparsable_json_amended sigOkBadJsonWorld none (some "PEMKEY") storeC3 "POST"
    [] "not json" badJsonIntakeWorld "POST" "not json" (by decide) rfl rfl rfl
    rfl rfl

end Wata
